import Mathlib

set_option maxHeartbeats 1000000

/- Shallow embedding of the seeded video uniquifier in src/unique.py.
   Python floats are modelled as rationals, paths as strings, the file
   system as a partial map from paths to byte lists, and the external
   tools (ffprobe / ffmpeg) as abstract functions supplied by an
   environment record.  random.Random is modelled as a pair of abstract
   draw streams together with a position, one draw consumed per call. -/

/- Python round(x, n): round half to even at n decimal digits. -/
def roundHalfEvenInt (x : ℚ) : ℤ :=
  if x - (⌊x⌋ : ℚ) < 1/2 then ⌊x⌋
  else if 1/2 < x - (⌊x⌋ : ℚ) then ⌊x⌋ + 1
  else if ⌊x⌋ % 2 = 0 then ⌊x⌋ else ⌊x⌋ + 1

def pyRound (x : ℚ) (n : ℕ) : ℚ :=
  (roundHalfEvenInt (x * 10 ^ n) : ℚ) / 10 ^ n

/- Python `a or b` on strings: the empty string is falsy. -/
def pyOr (a b : String) : String := if a == "" then b else a

/- Abstract deterministic pseudo-random generator standing for
   random.Random: a stream `u` of raw uniform draws in [0, 1), a stream
   `n` of raw integer draws, and the current position `idx`. -/
structure RNG where
  u : ℕ → ℚ
  n : ℕ → ℕ
  idx : ℕ
  hu : ∀ i, 0 ≤ u i ∧ u i < 1

def RNG.next (g : RNG) : RNG := ⟨g.u, g.n, g.idx + 1, g.hu⟩

/- random.Random.random(): one raw draw in [0, 1). -/
def RNG.random (g : RNG) : ℚ × RNG := (g.u g.idx, g.next)

/- random.Random.uniform(a, b) = a + (b - a) * random(). -/
def RNG.uniform (g : RNG) (a b : ℚ) : ℚ × RNG :=
  (a + (b - a) * g.u g.idx, g.next)

/- random.Random.randint(a, b): uniform integer in [a, b] inclusive. -/
def RNG.randint (g : RNG) (a b : ℕ) : ℕ × RNG :=
  (a + g.n g.idx % (b - a + 1), g.next)

/- random.Random.choice over a nonempty sequence. -/
def RNG.choice (g : RNG) (l : List String) : String × RNG :=
  (l.getD (g.n g.idx % l.length) "", g.next)

/- Module-level tuning constants of src/unique.py, lines 13-40. -/

def SKIP_IF_EXISTS : Bool := true

def SPEED_RANGE : ℚ × ℚ := (1.03, 1.07)

def BRIGHTNESS_RANGE : ℚ × ℚ := (0.02, 0.06)

def CONTRAST_RANGE : ℚ × ℚ := (1.06, 1.12)

def SATURATION_RANGE : ℚ × ℚ := (1.03, 1.10)

def SHARPEN_PROB : ℚ := 0.8

def UNSHARP_RANGE : ℚ × ℚ := (0.8, 1.15)

def LOGO_HEIGHT_RANGE : ℕ × ℕ := (120, 170)

def LOGO_MARGIN_RANGE : ℕ × ℕ := (8, 30)

def LOGO_POSITIONS : List String := ["tl", "tr", "bl", "br"]

def TEXT_FONTSIZE_RANGE : ℕ × ℕ := (22, 30)

def TEXT_MARGIN_RANGE : ℕ × ℕ := (10, 28)

def METADATA_MODES : List String := ["remove", "set"]

def AUDIO_ENABLE_DEFAULT : Bool := true

def AUDIO_VOLUME_RANGE : ℚ × ℚ := (0.97, 1.03)

def AUDIO_HIGHPASS_RANGE : ℕ × ℕ := (40, 90)

def AUDIO_LOWPASS_RANGE : ℕ × ℕ := (14500, 18000)

def AUDIO_EQ_FREQ_RANGE : ℕ × ℕ := (800, 3000)

def AUDIO_EQ_GAIN_RANGE : ℚ × ℚ := (-1.5, 1.5)

def AUDIO_PITCH_RANGE : ℚ × ℚ := (0.985, 1.015)

def USE_RUBBERBAND : Bool := true

/- The parameter set produced by _pick_params (its returned dict),
   fields in the dict's key order. -/
structure Params where
  speed : ℚ
  brightness : ℚ
  contrast : ℚ
  saturation : ℚ
  apply_sharpen : Bool
  sharpen_strength : ℚ
  logo_height : ℕ
  logo_margin : ℕ
  logo_pos : String
  text_size : ℕ
  text_margin : ℕ
  meta_mode : String
  vol : ℚ
  hp : ℕ
  lp : ℕ
  eqf : ℕ
  eqg : ℚ
  pitch : ℚ
deriving DecidableEq

/- _pick_params, src/unique.py lines 85-130: one draw per source call,
   in source order, state threaded through pN. -/
def _pick_params (g : RNG) : Params :=
  let p1 := g.uniform SPEED_RANGE.1 SPEED_RANGE.2
  let speed := pyRound p1.1 3
  let p2 := p1.2.uniform BRIGHTNESS_RANGE.1 BRIGHTNESS_RANGE.2
  let brightness := pyRound p2.1 3
  let p3 := p2.2.uniform CONTRAST_RANGE.1 CONTRAST_RANGE.2
  let contrast := pyRound p3.1 3
  let p4 := p3.2.uniform SATURATION_RANGE.1 SATURATION_RANGE.2
  let saturation := pyRound p4.1 3
  let p5 := p4.2.random
  let apply_sharpen := decide (p5.1 < SHARPEN_PROB)
  let p6 := p5.2.uniform UNSHARP_RANGE.1 UNSHARP_RANGE.2
  let sharpen_strength := pyRound p6.1 2
  let p7 := p6.2.randint LOGO_HEIGHT_RANGE.1 LOGO_HEIGHT_RANGE.2
  let p8 := p7.2.randint LOGO_MARGIN_RANGE.1 LOGO_MARGIN_RANGE.2
  let p9 := p8.2.choice LOGO_POSITIONS
  let p10 := p9.2.randint TEXT_FONTSIZE_RANGE.1 TEXT_FONTSIZE_RANGE.2
  let p11 := p10.2.randint TEXT_MARGIN_RANGE.1 TEXT_MARGIN_RANGE.2
  let p12 := p11.2.choice METADATA_MODES
  let p13 := p12.2.uniform AUDIO_VOLUME_RANGE.1 AUDIO_VOLUME_RANGE.2
  let vol := pyRound p13.1 3
  let p14 := p13.2.randint AUDIO_HIGHPASS_RANGE.1 AUDIO_HIGHPASS_RANGE.2
  let p15 := p14.2.randint AUDIO_LOWPASS_RANGE.1 AUDIO_LOWPASS_RANGE.2
  let p16 := p15.2.randint AUDIO_EQ_FREQ_RANGE.1 AUDIO_EQ_FREQ_RANGE.2
  let p17 := p16.2.uniform AUDIO_EQ_GAIN_RANGE.1 AUDIO_EQ_GAIN_RANGE.2
  let eqg := pyRound p17.1 2
  let p18 := p17.2.uniform AUDIO_PITCH_RANGE.1 AUDIO_PITCH_RANGE.2
  let pitch := pyRound p18.1 4
  ⟨speed, brightness, contrast, saturation, apply_sharpen, sharpen_strength,
   p7.1, p8.1, p9.1, p10.1, p11.1, p12.1, vol, p14.1, p15.1, p16.1, eqg, pitch⟩

/- Bounds lemmas for the rounding applied by the sampler. -/

lemma floor_le_roundHE (x : ℚ) : ⌊x⌋ ≤ roundHalfEvenInt x := by
  unfold roundHalfEvenInt
  split
  · exact le_rfl
  · split
    · omega
    · split <;> omega

lemma roundHE_le_ceil (x : ℚ) : roundHalfEvenInt x ≤ ⌈x⌉ := by
  unfold roundHalfEvenInt
  have hfc : ⌊x⌋ ≤ ⌈x⌉ := Int.floor_le_ceil x
  split
  · exact hfc
  · rename_i h
    push_neg at h
    have hx : (⌊x⌋ : ℚ) < x := by linarith
    have h1 : ⌊x⌋ < ⌈x⌉ := Int.lt_ceil.mpr hx
    split
    · omega
    · split <;> omega

lemma le_roundHE_of_le (k : ℤ) (x : ℚ) (h : (k : ℚ) ≤ x) : k ≤ roundHalfEvenInt x :=
  le_trans (Int.le_floor.mpr h) (floor_le_roundHE x)

lemma roundHE_le_of_le (k : ℤ) (x : ℚ) (h : x ≤ (k : ℚ)) : roundHalfEvenInt x ≤ k :=
  le_trans (roundHE_le_ceil x) (Int.ceil_le.mpr h)

lemma le_pyRound (lo x : ℚ) (n : ℕ) (k : ℤ) (hk : lo * 10 ^ n = (k : ℚ)) (h : lo ≤ x) :
    lo ≤ pyRound x n := by
  have hp : (0 : ℚ) < 10 ^ n := by positivity
  have h1 : (k : ℚ) ≤ x * 10 ^ n := by
    rw [← hk]
    exact mul_le_mul_of_nonneg_right h hp.le
  have h2 : k ≤ roundHalfEvenInt (x * 10 ^ n) := le_roundHE_of_le _ _ h1
  unfold pyRound
  rw [le_div_iff₀ hp, hk]
  exact_mod_cast h2

lemma pyRound_le (hi x : ℚ) (n : ℕ) (k : ℤ) (hk : hi * 10 ^ n = (k : ℚ)) (h : x ≤ hi) :
    pyRound x n ≤ hi := by
  have hp : (0 : ℚ) < 10 ^ n := by positivity
  have h1 : x * 10 ^ n ≤ (k : ℚ) := by
    rw [← hk]
    exact mul_le_mul_of_nonneg_right h hp.le
  have h2 : roundHalfEvenInt (x * 10 ^ n) ≤ k := roundHE_le_of_le _ _ h1
  unfold pyRound
  rw [div_le_iff₀ hp, hk]
  exact_mod_cast h2

lemma uniform_round_mem (lo hi : ℚ) (n : ℕ) (k1 k2 : ℤ)
    (hk1 : lo * 10 ^ n = (k1 : ℚ)) (hk2 : hi * 10 ^ n = (k2 : ℚ))
    (hlh : lo ≤ hi) (u : ℚ) (h0 : 0 ≤ u) (h1 : u < 1) :
    lo ≤ pyRound (lo + (hi - lo) * u) n ∧ pyRound (lo + (hi - lo) * u) n ≤ hi := by
  have hx1 : lo ≤ lo + (hi - lo) * u := by nlinarith
  have hx2 : lo + (hi - lo) * u ≤ hi := by nlinarith
  exact ⟨le_pyRound lo _ n k1 hk1 hx1, pyRound_le hi _ n k2 hk2 hx2⟩

lemma randint_mem (a b m : ℕ) (hab : a ≤ b) :
    a ≤ a + m % (b - a + 1) ∧ a + m % (b - a + 1) ≤ b := by
  have h : m % (b - a + 1) < b - a + 1 := Nat.mod_lt _ (by omega)
  omega

/- Field-value lemmas for _pick_params, each definitional. -/

lemma pick_speed (g : RNG) :
    (_pick_params g).speed = pyRound (1.03 + (1.07 - 1.03) * g.u g.idx) 3 := rfl

lemma pick_brightness (g : RNG) :
    (_pick_params g).brightness = pyRound (0.02 + (0.06 - 0.02) * g.u (g.idx + 1)) 3 := rfl

lemma pick_contrast (g : RNG) :
    (_pick_params g).contrast = pyRound (1.06 + (1.12 - 1.06) * g.u (g.idx + 2)) 3 := rfl

lemma pick_saturation (g : RNG) :
    (_pick_params g).saturation = pyRound (1.03 + (1.10 - 1.03) * g.u (g.idx + 3)) 3 := rfl

lemma pick_sharpen_strength (g : RNG) :
    (_pick_params g).sharpen_strength = pyRound (0.8 + (1.15 - 0.8) * g.u (g.idx + 5)) 2 := rfl

lemma pick_logo_height (g : RNG) :
    (_pick_params g).logo_height = 120 + g.n (g.idx + 6) % (170 - 120 + 1) := rfl

lemma pick_logo_margin (g : RNG) :
    (_pick_params g).logo_margin = 8 + g.n (g.idx + 7) % (30 - 8 + 1) := rfl

lemma pick_text_size (g : RNG) :
    (_pick_params g).text_size = 22 + g.n (g.idx + 9) % (30 - 22 + 1) := rfl

lemma pick_text_margin (g : RNG) :
    (_pick_params g).text_margin = 10 + g.n (g.idx + 10) % (28 - 10 + 1) := rfl

lemma pick_vol (g : RNG) :
    (_pick_params g).vol = pyRound (0.97 + (1.03 - 0.97) * g.u (g.idx + 12)) 3 := rfl

lemma pick_hp (g : RNG) :
    (_pick_params g).hp = 40 + g.n (g.idx + 13) % (90 - 40 + 1) := rfl

lemma pick_lp (g : RNG) :
    (_pick_params g).lp = 14500 + g.n (g.idx + 14) % (18000 - 14500 + 1) := rfl

lemma pick_eqf (g : RNG) :
    (_pick_params g).eqf = 800 + g.n (g.idx + 15) % (3000 - 800 + 1) := rfl

lemma pick_eqg (g : RNG) :
    (_pick_params g).eqg = pyRound (-1.5 + (1.5 - -1.5) * g.u (g.idx + 16)) 2 := rfl

lemma pick_pitch (g : RNG) :
    (_pick_params g).pitch = pyRound (0.985 + (1.015 - 0.985) * g.u (g.idx + 17)) 4 := rfl

/-- C2: every numeric field of a sampled Parameter Set lies inclusively
within its configured closed interval, including after the rounding
applied by the sampler. -/
theorem sampled_params_within_bounds (g : RNG) :
    ((1.03 : ℚ) ≤ (_pick_params g).speed ∧ (_pick_params g).speed ≤ 1.07) ∧
    ((0.02 : ℚ) ≤ (_pick_params g).brightness ∧ (_pick_params g).brightness ≤ 0.06) ∧
    ((1.06 : ℚ) ≤ (_pick_params g).contrast ∧ (_pick_params g).contrast ≤ 1.12) ∧
    ((1.03 : ℚ) ≤ (_pick_params g).saturation ∧ (_pick_params g).saturation ≤ 1.10) ∧
    ((0.8 : ℚ) ≤ (_pick_params g).sharpen_strength ∧ (_pick_params g).sharpen_strength ≤ 1.15) ∧
    (120 ≤ (_pick_params g).logo_height ∧ (_pick_params g).logo_height ≤ 170) ∧
    (8 ≤ (_pick_params g).logo_margin ∧ (_pick_params g).logo_margin ≤ 30) ∧
    (22 ≤ (_pick_params g).text_size ∧ (_pick_params g).text_size ≤ 30) ∧
    (10 ≤ (_pick_params g).text_margin ∧ (_pick_params g).text_margin ≤ 28) ∧
    ((0.97 : ℚ) ≤ (_pick_params g).vol ∧ (_pick_params g).vol ≤ 1.03) ∧
    (40 ≤ (_pick_params g).hp ∧ (_pick_params g).hp ≤ 90) ∧
    (14500 ≤ (_pick_params g).lp ∧ (_pick_params g).lp ≤ 18000) ∧
    (800 ≤ (_pick_params g).eqf ∧ (_pick_params g).eqf ≤ 3000) ∧
    ((-1.5 : ℚ) ≤ (_pick_params g).eqg ∧ (_pick_params g).eqg ≤ 1.5) ∧
    ((0.985 : ℚ) ≤ (_pick_params g).pitch ∧ (_pick_params g).pitch ≤ 1.015) := by
  refine ⟨?_, ?_, ?_, ?_, ?_, ?_, ?_, ?_, ?_, ?_, ?_, ?_, ?_, ?_, ?_⟩
  · rw [pick_speed]
    exact uniform_round_mem 1.03 1.07 3 1030 1070 (by norm_num) (by norm_num)
      (by norm_num) _ (g.hu _).1 (g.hu _).2
  · rw [pick_brightness]
    exact uniform_round_mem 0.02 0.06 3 20 60 (by norm_num) (by norm_num)
      (by norm_num) _ (g.hu _).1 (g.hu _).2
  · rw [pick_contrast]
    exact uniform_round_mem 1.06 1.12 3 1060 1120 (by norm_num) (by norm_num)
      (by norm_num) _ (g.hu _).1 (g.hu _).2
  · rw [pick_saturation]
    exact uniform_round_mem 1.03 1.10 3 1030 1100 (by norm_num) (by norm_num)
      (by norm_num) _ (g.hu _).1 (g.hu _).2
  · rw [pick_sharpen_strength]
    exact uniform_round_mem 0.8 1.15 2 80 115 (by norm_num) (by norm_num)
      (by norm_num) _ (g.hu _).1 (g.hu _).2
  · rw [pick_logo_height]
    exact randint_mem 120 170 _ (by norm_num)
  · rw [pick_logo_margin]
    exact randint_mem 8 30 _ (by norm_num)
  · rw [pick_text_size]
    exact randint_mem 22 30 _ (by norm_num)
  · rw [pick_text_margin]
    exact randint_mem 10 28 _ (by norm_num)
  · rw [pick_vol]
    exact uniform_round_mem 0.97 1.03 3 970 1030 (by norm_num) (by norm_num)
      (by norm_num) _ (g.hu _).1 (g.hu _).2
  · rw [pick_hp]
    exact randint_mem 40 90 _ (by norm_num)
  · rw [pick_lp]
    exact randint_mem 14500 18000 _ (by norm_num)
  · rw [pick_eqf]
    exact randint_mem 800 3000 _ (by norm_num)
  · rw [pick_eqg]
    exact uniform_round_mem (-1.5) 1.5 2 (-150) 150 (by norm_num) (by norm_num)
      (by norm_num) _ (g.hu _).1 (g.hu _).2
  · rw [pick_pitch]
    exact uniform_round_mem 0.985 1.015 4 9850 10150 (by norm_num) (by norm_num)
      (by norm_num) _ (g.hu _).1 (g.hu _).2

/- String helpers used by the builder and the failure classifier. -/

def strHasSub (hay needle : String) : Bool := decide (needle.toList <:+: hay.toList)

def strStarts (s pre : String) : Bool := decide (pre.toList <+: s.toList)

/- Decimal rendering of a rounded rational, standing for Python's
   f-string formatting of the rounded floats (all sampled values have
   denominator dividing 10^4 after rounding): integer part, a dot, and
   the fractional digits with trailing zeros stripped but at least one
   digit kept, sign in front. -/
def decStr (q : ℚ) : String :=
  let sgn := if q < 0 then "-" else ""
  let scaled : ℕ := (|q| * 10000).num.toNat
  let ip := scaled / 10000
  let d4 := toString (scaled % 10000)
  let padded := String.mk (List.replicate (4 - d4.length) '0') ++ d4
  let trimmed := (padded.toList.reverse.dropWhile (fun c => c == '0')).reverse
  sgn ++ toString ip ++ "." ++ (if trimmed.isEmpty then "0" else String.mk trimmed)

/- The file system: a partial map from paths to byte contents.
   Path.is_file holds exactly on mapped paths. -/
abbrev FS : Type := String → Option (List ℕ)

def fsIsFile (fs : FS) (p : String) : Bool := (fs p).isSome

/- _overlay_expr, src/unique.py lines 45-51 (dict .get with default). -/
def _overlay_expr (pos : String) (margin : ℕ) : String :=
  let m := toString margin
  if pos == "tl" then m ++ ":" ++ m
  else if pos == "tr" then "W-w-" ++ m ++ ":" ++ m
  else if pos == "bl" then m ++ ":H-h-" ++ m
  else if pos == "br" then "W-w-" ++ m ++ ":H-h-" ++ m
  else m ++ ":" ++ m

/- _ff_escape_path, src/unique.py lines 54-56: escape colons; the
   resolve()/as_posix() normalization is not modelled, paths are taken
   as already absolute posix strings. -/
def _ff_escape_path (p : String) : String := p.replace ":" "\x5c:"

/- Python str.lower(), character by character. -/
def pyLower (s : String) : String := String.mk (s.toList.map Char.toLower)

/- _stderr_has_rubberband_issue, src/unique.py lines 74-82. -/
def _stderr_has_rubberband_issue (stderr : String) : Bool :=
  let s := pyLower stderr
  strHasSub s "rubberband" &&
    (strHasSub s "no such filter" || strHasSub s "filter not found" ||
     strHasSub s "invalid argument" || strHasSub s "error initializing filter")

/- The pieces of _build_cmd, src/unique.py lines 133-225.  The truthy
   logo condition `logo_path and logo_path.is_file()`; the truthy text
   condition `overlay_text and font_path and font_path.is_file()`
   (an empty overlay string is falsy in Python). -/

def _logo_on (fs : FS) (logo_path : Option String) : Bool :=
  match logo_path with
  | some l => fsIsFile fs l
  | none => false

def _text_on (fs : FS) (overlay_text font_path : Option String) : Bool :=
  match overlay_text, font_path with
  | some t, some f => (t != "") && fsIsFile fs f
  | _, _ => false

def _logo_inputs (fs : FS) (logo_path : Option String) : List String :=
  match logo_path with
  | some l => if fsIsFile fs l then ["-i", l] else []
  | none => []

def _logo_parts (fs : FS) (logo_path : Option String) (params : Params) : List String :=
  match logo_path with
  | some l =>
    if fsIsFile fs l then
      ["[1:v]scale=-1:" ++ toString params.logo_height ++ "[logo]",
       "[v0][logo]overlay=" ++ _overlay_expr params.logo_pos params.logo_margin ++ "[v1]"]
    else []
  | none => []

def _drawtext_part (vcur f : String) (params : Params) (td_path : String) : String :=
  "[" ++ vcur ++ ("]drawtext=fontfile=\x27" ++ _ff_escape_path f ++ "\x27:textfile=\x27" ++
    _ff_escape_path (td_path ++ "/text.txt") ++ "\x27:reload=0:fontsize=" ++
    toString params.text_size ++ ":fontcolor=white:x=w-tw-" ++ toString params.text_margin ++
    ":y=h-th-" ++ toString params.text_margin ++ "[vout]")

def _text_parts (fs : FS) (overlay_text font_path : Option String) (params : Params)
    (vcur td_path : String) : List String :=
  match overlay_text, font_path with
  | some t, some f =>
    if (t != "") && fsIsFile fs f then [_drawtext_part vcur f params td_path] else []
  | _, _ => []

/- The write of text.txt performed inside _build_cmd (line 178). -/
def _text_write (fs : FS) (overlay_text font_path : Option String)
    (td_path : String) : Option (String × String) :=
  match overlay_text, font_path with
  | some t, some f =>
    if (t != "") && fsIsFile fs f then some (td_path ++ "/text.txt", t) else none
  | _, _ => none

def _vf_chain (params : Params) : List String :=
  ["setpts=PTS/" ++ decStr params.speed,
   "scale=iw*1.01:ih*1.01,crop=iw/1.01:ih/1.01:(iw-iw/1.01)/2:(ih-ih/1.01)/2",
   "eq=brightness=" ++ decStr params.brightness ++ ":contrast=" ++ decStr params.contrast ++
     ":saturation=" ++ decStr params.saturation] ++
  (if params.apply_sharpen then
    ["unsharp=5:5:" ++ decStr params.sharpen_strength ++ ":5:5:0.0"] else [])

def _af_chain (params : Params) (use_rubberband : Bool) : List String :=
  ["atempo=" ++ decStr params.speed,
   "volume=" ++ decStr params.vol,
   "highpass=f=" ++ toString params.hp,
   "lowpass=f=" ++ toString params.lp,
   "equalizer=f=" ++ toString params.eqf ++ ":t=q:w=1:g=" ++ decStr params.eqg] ++
  (if use_rubberband then ["rubberband=pitch=" ++ decStr params.pitch] else [])

/- The value returned by _build_cmd, plus the text.txt write it makes. -/
structure BuildOut where
  cmd : List String
  fc_parts : List String
  filter_complex : String
  textWrite : Option (String × String)

/- _build_cmd, src/unique.py lines 133-225.  `gdraw` is the raw draw of
   the process-global random.randint used for the comment tag. -/
def _build_cmd (fs : FS) (inp_path out_path : String) (params : Params)
    (logo_path overlay_text font_path : Option String)
    (audio_enabled audio_present use_rubberband : Bool)
    (td_path : String) (gdraw : ℕ) : BuildOut :=
  let base_vf := String.intercalate "," (_vf_chain params)
  let fc0 := "[0:v]" ++ base_vf ++ "[v0]"
  let vcur1 := if _logo_on fs logo_path then "v1" else "v0"
  let vcur2 := if _text_on fs overlay_text font_path then "vout" else vcur1
  let inputs := ["-i", inp_path] ++ _logo_inputs fs logo_path
  let audioOn := audio_enabled && audio_present
  let fc_parts := [fc0] ++ _logo_parts fs logo_path params ++
    _text_parts fs overlay_text font_path params vcur1 td_path ++
    (if audioOn then
      ["[0:a]" ++ String.intercalate "," (_af_chain params use_rubberband) ++ "[aout]"]
     else [])
  let filter_complex := String.intercalate ";" fc_parts
  let meta_args := if params.meta_mode == "remove" then ["-map_metadata", "-1"]
    else ["-map_metadata", "-1", "-metadata",
          "comment=proc_" ++ toString (100000 + gdraw % 900000)]
  let cmd := ["ffmpeg", "-y"] ++ inputs ++
    ["-filter_complex", filter_complex, "-map", "[" ++ vcur2 ++ "]"] ++
    (if audioOn then ["-map", "[aout]"] else ["-map", "0:a?"]) ++
    ["-c:v", "libx264", "-preset", "veryfast", "-crf", "23",
     "-c:a", "aac", "-b:a", "160k"] ++ meta_args ++ [out_path]
  ⟨cmd, fc_parts, filter_complex, _text_write fs overlay_text font_path td_path⟩

/- The outcome of one external process invocation. -/
structure ProcResult where
  returncode : ℤ
  stdout : String
  stderr : String
deriving DecidableEq

/- Observable side effects of one uniquify_video_file call, in order. -/
inductive Ev
  | mkdirp (path : String)
  | probe (path : String)
  | writeText (path content : String)
  | exec (cmd : List String)
deriving DecidableEq

/- The runtime environment: ffprobe and ffmpeg as abstract functions
   (ffmpeg may rewrite the file system), the process-global random
   module stream (used when no seed is given and for the comment tag),
   and the temporary directory names the tempfile module hands out. -/
structure Env where
  probeAudio : String → ProcResult
  run : List String → FS → ProcResult × FS
  globalRng : RNG
  gRand : ℕ → ℕ
  tempDir : String
  tempDirBytes : String
  moduleDir : String

/- _has_audio_stream, src/unique.py lines 59-67. -/
def _has_audio_stream (env : Env) (src : String) : Bool :=
  let p := env.probeAudio src
  (p.returncode == 0) && strHasSub (pyLower p.stdout) "audio"

def strBytes (s : String) : List ℕ := s.toList.map Char.toNat

def applyWrite (fs : FS) (w : Option (String × String)) : FS :=
  match w with
  | none => fs
  | some pc => fun q => if q = pc.1 then some (strBytes pc.2) else fs q

def writeEvents (w : Option (String × String)) : List Ev :=
  match w with
  | none => []
  | some pc => [Ev.writeText pc.1 pc.2]

/- TemporaryDirectory cleanup: everything under the scope vanishes. -/
def scrubTmp (td : String) (fs : FS) : FS :=
  fun p => if p.startsWith td then none else fs p

def execCmds (evs : List Ev) : List (List String) :=
  evs.filterMap (fun e => match e with | Ev.exec c => some c | _ => none)

/- Default-font substitution, src/unique.py lines 251-253: with no
   caller font, Arial.ttf next to the module is used when it exists. -/
def resolve_font (env : Env) (fs : FS) (font_path : Option String) : Option String :=
  match font_path with
  | some f => some f
  | none =>
    let fp := env.moduleDir ++ "/Arial.ttf"
    if fsIsFile fs fp then some fp else none

/- Line 257: random.Random(seed) when a seed is given, the process-wide
   random module otherwise. -/
def seed_rng (rngOf : ℤ → RNG) (env : Env) (seed : Option ℤ) : RNG :=
  match seed with
  | some s => rngOf s
  | none => env.globalRng

/- What one uniquify_video_file call returns and did: the returned path
   or the raised RuntimeError text, the side effects, and the Parameter
   Set it sampled (none when the skip short-circuit fired). -/
structure FileRunOut where
  result : Except String String
  events : List Ev
  sampled : Option Params

/- Line 299: RuntimeError(f"ffmpeg error: {p.stderr or p.stdout or 'unknown'}"). -/
def ffmpeg_diag (p : ProcResult) : String :=
  "ffmpeg error: " ++ pyOr p.stderr (pyOr p.stdout "unknown")

/- uniquify_video_file, src/unique.py lines 230-301.  `rngOf` stands
   for the deterministic construction random.Random(seed); it is a
   fixed function of the seed, not part of the environment. -/
def uniquify_video_file (rngOf : ℤ → RNG) (env : Env) (fs : FS)
    (input_path output_path : String) (seed : Option ℤ) (skip_if_exists : Bool)
    (logo_path overlay_text font_path : Option String) (audio_enabled : Bool) :
    FileRunOut × FS :=
  if skip_if_exists && fsIsFile fs output_path then
    (⟨Except.ok output_path, [], none⟩, fs)
  else
    let font2 := resolve_font env fs font_path
    let params := _pick_params (seed_rng rngOf env seed)
    let audio_present := _has_audio_stream env input_path
    let td_path := env.tempDir
    let use_rb := USE_RUBBERBAND
    let b1 := _build_cmd fs input_path output_path params logo_path overlay_text font2
      audio_enabled audio_present use_rb td_path (env.gRand 0)
    let r1 := env.run b1.cmd (applyWrite fs b1.textWrite)
    let ev1 := [Ev.mkdirp output_path, Ev.probe input_path] ++
      writeEvents b1.textWrite ++ [Ev.exec b1.cmd]
    if (r1.1.returncode != 0) && use_rb && audio_enabled && audio_present &&
        _stderr_has_rubberband_issue r1.1.stderr then
      let b2 := _build_cmd r1.2 input_path output_path params logo_path overlay_text font2
        audio_enabled audio_present false td_path (env.gRand 1)
      let r2 := env.run b2.cmd (applyWrite r1.2 b2.textWrite)
      let ev2 := ev1 ++ writeEvents b2.textWrite ++ [Ev.exec b2.cmd]
      if r2.1.returncode != 0 then
        (⟨Except.error (ffmpeg_diag r2.1), ev2, some params⟩, scrubTmp td_path r2.2)
      else
        (⟨Except.ok output_path, ev2, some params⟩, scrubTmp td_path r2.2)
    else
      if r1.1.returncode != 0 then
        (⟨Except.error (ffmpeg_diag r1.1), ev1, some params⟩, scrubTmp td_path r1.2)
      else
        (⟨Except.ok output_path, ev1, some params⟩, scrubTmp td_path r1.2)

/- uniquify_video, src/unique.py lines 304-339: bytes-to-bytes wrapper.
   Materializes the input bytes, delegates to uniquify_video_file with
   the same options, reads the produced output back (read_bytes raises
   when the file is missing), cleans its temporary scope. -/
def uniquify_video (rngOf : ℤ → RNG) (env : Env) (fs : FS) (input_bytes : List ℕ)
    (seed : Option ℤ) (output_path : Option String) (skip_if_exists : Bool)
    (logo_path overlay_text font_path : Option String) (audio_enabled : Bool) :
    Except String (List ℕ) × FS :=
  let td_path := env.tempDirBytes
  let inp_path := td_path ++ "/in.mp4"
  let fsW : FS := fun q => if q = inp_path then some input_bytes else fs q
  let out_path := match output_path with
    | some o => o
    | none => td_path ++ "/out.mp4"
  let r := uniquify_video_file rngOf env fsW inp_path out_path seed skip_if_exists
    logo_path overlay_text font_path audio_enabled
  match r.1.result with
  | Except.error e => (Except.error e, scrubTmp td_path r.2)
  | Except.ok _ =>
    match r.2 out_path with
    | some bs => (Except.ok bs, scrubTmp td_path r.2)
    | none => (Except.error "FileNotFoundError", scrubTmp td_path r.2)

/- Named decomposition of the non-skip run of uniquify_video_file,
   each piece read off lines 257-296 of the source. -/

def primary_build (rngOf : ℤ → RNG) (env : Env) (fs : FS) (inp out : String)
    (seed : Option ℤ) (logo text font : Option String) (ae : Bool) : BuildOut :=
  _build_cmd fs inp out (_pick_params (seed_rng rngOf env seed)) logo text
    (resolve_font env fs font) ae (_has_audio_stream env inp) USE_RUBBERBAND
    env.tempDir (env.gRand 0)

def primary_run (rngOf : ℤ → RNG) (env : Env) (fs : FS) (inp out : String)
    (seed : Option ℤ) (logo text font : Option String) (ae : Bool) : ProcResult × FS :=
  env.run (primary_build rngOf env fs inp out seed logo text font ae).cmd
    (applyWrite fs (primary_build rngOf env fs inp out seed logo text font ae).textWrite)

/- Line 283: the gate of the single fallback retry. -/
def retry_cond (rngOf : ℤ → RNG) (env : Env) (fs : FS) (inp out : String)
    (seed : Option ℤ) (logo text font : Option String) (ae : Bool) : Bool :=
  ((primary_run rngOf env fs inp out seed logo text font ae).1.returncode != 0) &&
    USE_RUBBERBAND && ae && _has_audio_stream env inp &&
    _stderr_has_rubberband_issue
      (primary_run rngOf env fs inp out seed logo text font ae).1.stderr

/- Lines 284-295: the retried build, identical except use_rubberband=False. -/
def fallback_build (rngOf : ℤ → RNG) (env : Env) (fs : FS) (inp out : String)
    (seed : Option ℤ) (logo text font : Option String) (ae : Bool) : BuildOut :=
  _build_cmd (primary_run rngOf env fs inp out seed logo text font ae).2 inp out
    (_pick_params (seed_rng rngOf env seed)) logo text
    (resolve_font env fs font) ae (_has_audio_stream env inp) false
    env.tempDir (env.gRand 1)

def fallback_run (rngOf : ℤ → RNG) (env : Env) (fs : FS) (inp out : String)
    (seed : Option ℤ) (logo text font : Option String) (ae : Bool) : ProcResult × FS :=
  env.run (fallback_build rngOf env fs inp out seed logo text font ae).cmd
    (applyWrite (primary_run rngOf env fs inp out seed logo text font ae).2
      (fallback_build rngOf env fs inp out seed logo text font ae).textWrite)

def primary_events (rngOf : ℤ → RNG) (env : Env) (fs : FS) (inp out : String)
    (seed : Option ℤ) (logo text font : Option String) (ae : Bool) : List Ev :=
  [Ev.mkdirp out, Ev.probe inp] ++
    writeEvents (primary_build rngOf env fs inp out seed logo text font ae).textWrite ++
    [Ev.exec (primary_build rngOf env fs inp out seed logo text font ae).cmd]

def fallback_events (rngOf : ℤ → RNG) (env : Env) (fs : FS) (inp out : String)
    (seed : Option ℤ) (logo text font : Option String) (ae : Bool) : List Ev :=
  primary_events rngOf env fs inp out seed logo text font ae ++
    writeEvents (fallback_build rngOf env fs inp out seed logo text font ae).textWrite ++
    [Ev.exec (fallback_build rngOf env fs inp out seed logo text font ae).cmd]

/- The non-skip run of uniquify_video_file in terms of the named pieces. -/
lemma uvf_run (rngOf : ℤ → RNG) (env : Env) (fs : FS) (inp out : String)
    (seed : Option ℤ) (sk : Bool) (logo text font : Option String) (ae : Bool)
    (h : (sk && fsIsFile fs out) = false) :
    uniquify_video_file rngOf env fs inp out seed sk logo text font ae =
      (if retry_cond rngOf env fs inp out seed logo text font ae then
        (if (fallback_run rngOf env fs inp out seed logo text font ae).1.returncode != 0 then
          (⟨Except.error (ffmpeg_diag (fallback_run rngOf env fs inp out seed logo text font ae).1),
            fallback_events rngOf env fs inp out seed logo text font ae,
            some (_pick_params (seed_rng rngOf env seed))⟩,
           scrubTmp env.tempDir (fallback_run rngOf env fs inp out seed logo text font ae).2)
        else
          (⟨Except.ok out,
            fallback_events rngOf env fs inp out seed logo text font ae,
            some (_pick_params (seed_rng rngOf env seed))⟩,
           scrubTmp env.tempDir (fallback_run rngOf env fs inp out seed logo text font ae).2))
      else
        (if (primary_run rngOf env fs inp out seed logo text font ae).1.returncode != 0 then
          (⟨Except.error (ffmpeg_diag (primary_run rngOf env fs inp out seed logo text font ae).1),
            primary_events rngOf env fs inp out seed logo text font ae,
            some (_pick_params (seed_rng rngOf env seed))⟩,
           scrubTmp env.tempDir (primary_run rngOf env fs inp out seed logo text font ae).2)
        else
          (⟨Except.ok out,
            primary_events rngOf env fs inp out seed logo text font ae,
            some (_pick_params (seed_rng rngOf env seed))⟩,
           scrubTmp env.tempDir (primary_run rngOf env fs inp out seed logo text font ae).2))) := by
  have hc : ¬((sk && fsIsFile fs out) = true) := by simp [h]
  unfold uniquify_video_file
  rw [if_neg hc]
  rfl

lemma uvf_sampled (rngOf : ℤ → RNG) (env : Env) (fs : FS) (inp out : String)
    (seed : Option ℤ) (sk : Bool) (logo text font : Option String) (ae : Bool)
    (h : (sk && fsIsFile fs out) = false) :
    (uniquify_video_file rngOf env fs inp out seed sk logo text font ae).1.sampled
      = some (_pick_params (seed_rng rngOf env seed)) := by
  rw [uvf_run rngOf env fs inp out seed sk logo text font ae h]
  split
  · split <;> rfl
  · split <;> rfl

/-- C1: with a supplied seed, sampling is a pure function of the seed:
two runs that share the seed, in arbitrary (possibly different)
environments, file systems and argument lists, sample field-for-field
identical Parameter Sets, namely the one drawn from random.Random(seed). -/
theorem seeded_sampling_pure_function_of_seed (rngOf : ℤ → RNG) (s : ℤ)
    (e1 e2 : Env) (fs1 fs2 : FS) (i1 o1 i2 o2 : String) (sk1 sk2 : Bool)
    (l1 t1 f1 l2 t2 f2 : Option String) (a1 a2 : Bool)
    (h1 : (sk1 && fsIsFile fs1 o1) = false) (h2 : (sk2 && fsIsFile fs2 o2) = false) :
    (uniquify_video_file rngOf e1 fs1 i1 o1 (some s) sk1 l1 t1 f1 a1).1.sampled
      = (uniquify_video_file rngOf e2 fs2 i2 o2 (some s) sk2 l2 t2 f2 a2).1.sampled ∧
    (uniquify_video_file rngOf e1 fs1 i1 o1 (some s) sk1 l1 t1 f1 a1).1.sampled
      = some (_pick_params (rngOf s)) := by
  have q1 := uvf_sampled rngOf e1 fs1 i1 o1 (some s) sk1 l1 t1 f1 a1 h1
  have q2 := uvf_sampled rngOf e2 fs2 i2 o2 (some s) sk2 l2 t2 f2 a2 h2
  rw [q1, q2]
  exact ⟨rfl, rfl⟩

/-- C5: with skip-if-exists enabled and an existing destination file,
the operation returns the destination immediately, with no probe, no
sampling and no tool invocation, and leaves the file system untouched;
a second call therefore does the same and returns the same path. -/
theorem skip_if_exists_short_circuits (rngOf : ℤ → RNG) (env : Env) (fs : FS)
    (inp out : String) (seed : Option ℤ) (sk : Bool)
    (logo text font : Option String) (ae : Bool)
    (hsk : sk = true) (hex : fsIsFile fs out = true) :
    uniquify_video_file rngOf env fs inp out seed sk logo text font ae
      = (⟨Except.ok out, [], none⟩, fs) ∧
    uniquify_video_file rngOf env
        (uniquify_video_file rngOf env fs inp out seed sk logo text font ae).2
        inp out seed sk logo text font ae
      = (⟨Except.ok out, [], none⟩, fs) := by
  subst hsk
  have h1 : uniquify_video_file rngOf env fs inp out seed true logo text font ae
      = (⟨Except.ok out, [], none⟩, fs) := by
    unfold uniquify_video_file
    rw [if_pos (by simp [hex] : (true && fsIsFile fs out) = true)]
  refine ⟨h1, ?_⟩
  rw [h1]
  exact h1

/- Computation lemmas for execCmds over the event lists. -/

@[simp] lemma execCmds_nil : execCmds [] = [] := rfl

@[simp] lemma execCmds_append (a b : List Ev) :
    execCmds (a ++ b) = execCmds a ++ execCmds b := by
  simp [execCmds]

@[simp] lemma execCmds_mkdirp (p : String) (t : List Ev) :
    execCmds (Ev.mkdirp p :: t) = execCmds t := rfl

@[simp] lemma execCmds_probe (p : String) (t : List Ev) :
    execCmds (Ev.probe p :: t) = execCmds t := rfl

@[simp] lemma execCmds_writeText (p c : String) (t : List Ev) :
    execCmds (Ev.writeText p c :: t) = execCmds t := rfl

@[simp] lemma execCmds_exec (c : List String) (t : List Ev) :
    execCmds (Ev.exec c :: t) = c :: execCmds t := rfl

@[simp] lemma execCmds_writeEvents (w : Option (String × String)) :
    execCmds (writeEvents w) = [] := by
  cases w <;> rfl

lemma execCmds_primary_events (rngOf : ℤ → RNG) (env : Env) (fs : FS) (inp out : String)
    (seed : Option ℤ) (logo text font : Option String) (ae : Bool) :
    execCmds (primary_events rngOf env fs inp out seed logo text font ae)
      = [(primary_build rngOf env fs inp out seed logo text font ae).cmd] := by
  simp [primary_events]

lemma execCmds_fallback_events (rngOf : ℤ → RNG) (env : Env) (fs : FS) (inp out : String)
    (seed : Option ℤ) (logo text font : Option String) (ae : Bool) :
    execCmds (fallback_events rngOf env fs inp out seed logo text font ae)
      = [(primary_build rngOf env fs inp out seed logo text font ae).cmd,
         (fallback_build rngOf env fs inp out seed logo text font ae).cmd] := by
  simp [fallback_events, primary_events]

/-- C3: the fallback retry fires exactly when the first attempt exits
non-zero, the pitch stage was enabled (USE_RUBBERBAND) with audio
enabled and an audio stream present, and the captured stderr matches
the rubberband-unavailable pattern; when it fires exactly one retry is
run, built with use_rubberband disabled; otherwise no retry runs. -/
theorem fallback_retry_fires_iff_rubberband_issue (rngOf : ℤ → RNG) (env : Env)
    (fs : FS) (inp out : String) (seed : Option ℤ) (sk : Bool)
    (logo text font : Option String) (ae : Bool)
    (h : (sk && fsIsFile fs out) = false) :
    execCmds (uniquify_video_file rngOf env fs inp out seed sk logo text font ae).1.events
      = (if retry_cond rngOf env fs inp out seed logo text font ae then
          [(primary_build rngOf env fs inp out seed logo text font ae).cmd,
           (fallback_build rngOf env fs inp out seed logo text font ae).cmd]
         else [(primary_build rngOf env fs inp out seed logo text font ae).cmd]) ∧
    retry_cond rngOf env fs inp out seed logo text font ae
      = (((primary_run rngOf env fs inp out seed logo text font ae).1.returncode != 0) &&
          USE_RUBBERBAND && ae && _has_audio_stream env inp &&
          _stderr_has_rubberband_issue
            (primary_run rngOf env fs inp out seed logo text font ae).1.stderr) ∧
    fallback_build rngOf env fs inp out seed logo text font ae
      = _build_cmd (primary_run rngOf env fs inp out seed logo text font ae).2 inp out
          (_pick_params (seed_rng rngOf env seed)) logo text
          (resolve_font env fs font) ae (_has_audio_stream env inp) false
          env.tempDir (env.gRand 1) := by
  refine ⟨?_, rfl, rfl⟩
  rw [uvf_run rngOf env fs inp out seed sk logo text font ae h]
  split
  · split <;> simp [execCmds_fallback_events]
  · split <;> simp [execCmds_primary_events]

/-- C4: a non-zero exit that is not recognized as retryable, or a
non-zero exit of the single fallback retry, makes the operation fail,
carrying the diagnostic raised as RuntimeError("ffmpeg error: " plus
stderr or stdout or "unknown"); no second retry happens in either case. -/
theorem unretryable_failure_is_fatal (rngOf : ℤ → RNG) (env : Env)
    (fs : FS) (inp out : String) (seed : Option ℤ) (sk : Bool)
    (logo text font : Option String) (ae : Bool)
    (h : (sk && fsIsFile fs out) = false) :
    (retry_cond rngOf env fs inp out seed logo text font ae = false →
      (primary_run rngOf env fs inp out seed logo text font ae).1.returncode ≠ 0 →
      (uniquify_video_file rngOf env fs inp out seed sk logo text font ae).1.result
        = Except.error (ffmpeg_diag (primary_run rngOf env fs inp out seed logo text font ae).1) ∧
      execCmds (uniquify_video_file rngOf env fs inp out seed sk logo text font ae).1.events
        = [(primary_build rngOf env fs inp out seed logo text font ae).cmd]) ∧
    (retry_cond rngOf env fs inp out seed logo text font ae = true →
      (fallback_run rngOf env fs inp out seed logo text font ae).1.returncode ≠ 0 →
      (uniquify_video_file rngOf env fs inp out seed sk logo text font ae).1.result
        = Except.error (ffmpeg_diag (fallback_run rngOf env fs inp out seed logo text font ae).1) ∧
      execCmds (uniquify_video_file rngOf env fs inp out seed sk logo text font ae).1.events
        = [(primary_build rngOf env fs inp out seed logo text font ae).cmd,
           (fallback_build rngOf env fs inp out seed logo text font ae).cmd]) ∧
    ffmpeg_diag (primary_run rngOf env fs inp out seed logo text font ae).1
      = "ffmpeg error: " ++
        pyOr (primary_run rngOf env fs inp out seed logo text font ae).1.stderr
          (pyOr (primary_run rngOf env fs inp out seed logo text font ae).1.stdout "unknown") := by
  refine ⟨?_, ?_, rfl⟩
  · intro hrc hp1
    rw [uvf_run rngOf env fs inp out seed sk logo text font ae h, hrc]
    simp only [Bool.false_eq_true, if_false]
    rw [if_pos (by simpa using hp1)]
    exact ⟨rfl, by simp [execCmds_primary_events]⟩
  · intro hrc hp2
    rw [uvf_run rngOf env fs inp out seed sk logo text font ae h, hrc]
    simp only [if_true]
    rw [if_pos (by simpa using hp2)]
    exact ⟨rfl, by simp [execCmds_fallback_events]⟩

/- Definitional shape lemmas for _build_cmd. -/

lemma build_fc_parts (fs : FS) (inp out : String) (p : Params)
    (logo text font : Option String) (ae ap rb : Bool) (td : String) (g : ℕ) :
    (_build_cmd fs inp out p logo text font ae ap rb td g).fc_parts =
      ["[0:v]" ++ String.intercalate "," (_vf_chain p) ++ "[v0]"] ++
      _logo_parts fs logo p ++
      _text_parts fs text font p (if _logo_on fs logo then "v1" else "v0") td ++
      (if ae && ap then
        ["[0:a]" ++ String.intercalate "," (_af_chain p rb) ++ "[aout]"] else []) := rfl

lemma build_cmd_eq (fs : FS) (inp out : String) (p : Params)
    (logo text font : Option String) (ae ap rb : Bool) (td : String) (g : ℕ) :
    (_build_cmd fs inp out p logo text font ae ap rb td g).cmd =
      ["ffmpeg", "-y"] ++ (["-i", inp] ++ _logo_inputs fs logo) ++
      ["-filter_complex", (_build_cmd fs inp out p logo text font ae ap rb td g).filter_complex,
       "-map",
       "[" ++ (if _text_on fs text font then "vout"
               else if _logo_on fs logo then "v1" else "v0") ++ "]"] ++
      (if ae && ap then ["-map", "[aout]"] else ["-map", "0:a?"]) ++
      ["-c:v", "libx264", "-preset", "veryfast", "-crf", "23",
       "-c:a", "aac", "-b:a", "160k"] ++
      (if p.meta_mode == "remove" then ["-map_metadata", "-1"]
       else ["-map_metadata", "-1", "-metadata",
             "comment=proc_" ++ toString (100000 + g % 900000)]) ++
      [out] := rfl

/-- C7: the video filter chain applies, in this fixed order, the
timestamp rescale by the speed multiplier, the constant 1.01 micro-zoom
with centered crop back, the brightness/contrast/saturation adjustment
with the sampled values, and a sharpening stage at the sampled strength
present exactly when the sampled boolean flag is true. -/
theorem video_chain_fixed_order (fs : FS) (inp out : String) (p : Params)
    (logo text font : Option String) (ae ap rb : Bool) (td : String) (g : ℕ) :
    (_build_cmd fs inp out p logo text font ae ap rb td g).fc_parts.head? =
      some ("[0:v]" ++ String.intercalate ","
        (["setpts=PTS/" ++ decStr p.speed,
          "scale=iw*1.01:ih*1.01,crop=iw/1.01:ih/1.01:(iw-iw/1.01)/2:(ih-ih/1.01)/2",
          "eq=brightness=" ++ decStr p.brightness ++ ":contrast=" ++ decStr p.contrast ++
            ":saturation=" ++ decStr p.saturation] ++
         (if p.apply_sharpen then
           ["unsharp=5:5:" ++ decStr p.sharpen_strength ++ ":5:5:0.0"] else [])) ++
        "[v0]") := rfl

/-- C8: the builder never fails on missing or malformed optional
assets: an absent or non-file logo path yields the very same build as
no logo at all, an absent overlay text or absent or non-file font path
yields the very same build as neither text nor font, and with no assets
the graph is exactly the video chain plus, when audio is on, the audio
chain. -/
theorem assets_absent_silently_skipped (fs : FS) (inp out : String) (p : Params)
    (logo text font : Option String) (ae ap rb : Bool) (td : String) (g : ℕ) :
    (_logo_on fs logo = false →
      _build_cmd fs inp out p logo text font ae ap rb td g
        = _build_cmd fs inp out p none text font ae ap rb td g) ∧
    (_text_on fs text font = false →
      _build_cmd fs inp out p logo text font ae ap rb td g
        = _build_cmd fs inp out p logo none none ae ap rb td g) ∧
    ((_build_cmd fs inp out p none none none ae ap rb td g).fc_parts
      = ["[0:v]" ++ String.intercalate "," (_vf_chain p) ++ "[v0]"] ++
        (if ae && ap then
          ["[0:a]" ++ String.intercalate "," (_af_chain p rb) ++ "[aout]"] else [])) := by
  refine ⟨?_, ?_, rfl⟩
  · intro h
    cases logo with
    | none => rfl
    | some l =>
      have hl : fsIsFile fs l = false := by simpa [_logo_on] using h
      simp [_build_cmd, _logo_on, _logo_parts, _logo_inputs, hl]
  · intro h
    cases text with
    | none =>
      cases font with
      | none => rfl
      | some f => simp [_build_cmd, _text_on, _text_parts, _text_write]
    | some t =>
      cases font with
      | none => simp [_build_cmd, _text_on, _text_parts, _text_write]
      | some f =>
        have hf : ((t != "") && fsIsFile fs f) = false := by simpa [_text_on] using h
        simp [_build_cmd, _text_on, _text_parts, _text_write, hf]

/-- C6: the audio transform chain (time-stretch, volume, high-pass,
low-pass, equalizer, and conditionally the pitch stage) ends the graph
exactly when the caller enabled audio and the probe reported an audio
stream; otherwise the graph holds only the video-side nodes and the
command maps the original audio through as optional passthrough 0:a?. -/
theorem audio_chain_iff_enabled_and_present (fs : FS) (inp out : String) (p : Params)
    (logo text font : Option String) (ae ap rb : Bool) (td : String) (g : ℕ) :
    ((ae && ap) = true →
      (_build_cmd fs inp out p logo text font ae ap rb td g).fc_parts.getLast? =
        some ("[0:a]" ++ String.intercalate "," (_af_chain p rb) ++ "[aout]") ∧
      _af_chain p rb =
        ["atempo=" ++ decStr p.speed, "volume=" ++ decStr p.vol,
         "highpass=f=" ++ toString p.hp, "lowpass=f=" ++ toString p.lp,
         "equalizer=f=" ++ toString p.eqf ++ ":t=q:w=1:g=" ++ decStr p.eqg] ++
        (if rb then ["rubberband=pitch=" ++ decStr p.pitch] else []) ∧
      List.IsInfix ["-map", "[aout]"]
        (_build_cmd fs inp out p logo text font ae ap rb td g).cmd) ∧
    ((ae && ap) = false →
      (_build_cmd fs inp out p logo text font ae ap rb td g).fc_parts =
        ["[0:v]" ++ String.intercalate "," (_vf_chain p) ++ "[v0]"] ++
        _logo_parts fs logo p ++
        _text_parts fs text font p (if _logo_on fs logo then "v1" else "v0") td ∧
      List.IsInfix ["-map", "0:a?"]
        (_build_cmd fs inp out p logo text font ae ap rb td g).cmd) := by
  constructor
  · intro hc
    refine ⟨?_, rfl, ?_⟩
    · rw [build_fc_parts, hc]
      exact List.getLast?_concat _
    · rw [build_cmd_eq, hc]
      refine ⟨["ffmpeg", "-y"] ++ (["-i", inp] ++ _logo_inputs fs logo) ++
        ["-filter_complex",
         (_build_cmd fs inp out p logo text font ae ap rb td g).filter_complex,
         "-map",
         "[" ++ (if _text_on fs text font then "vout"
                 else if _logo_on fs logo then "v1" else "v0") ++ "]"],
        ["-c:v", "libx264", "-preset", "veryfast", "-crf", "23",
         "-c:a", "aac", "-b:a", "160k"] ++
        (if p.meta_mode == "remove" then ["-map_metadata", "-1"]
         else ["-map_metadata", "-1", "-metadata",
               "comment=proc_" ++ toString (100000 + g % 900000)]) ++ [out], ?_⟩
      simp [List.append_assoc]
  · intro hc
    constructor
    · rw [build_fc_parts, hc]
      simp
    · rw [build_cmd_eq, hc]
      refine ⟨["ffmpeg", "-y"] ++ (["-i", inp] ++ _logo_inputs fs logo) ++
        ["-filter_complex",
         (_build_cmd fs inp out p logo text font ae ap rb td g).filter_complex,
         "-map",
         "[" ++ (if _text_on fs text font then "vout"
                 else if _logo_on fs logo then "v1" else "v0") ++ "]"],
        ["-c:v", "libx264", "-preset", "veryfast", "-crf", "23",
         "-c:a", "aac", "-b:a", "160k"] ++
        (if p.meta_mode == "remove" then ["-map_metadata", "-1"]
         else ["-map_metadata", "-1", "-metadata",
               "comment=proc_" ++ toString (100000 + g % 900000)]) ++ [out], ?_⟩
      simp [List.append_assoc]

/-- C9: the bytes-to-bytes operation refines the file-to-file one: it
materializes the input bytes at in.mp4 under its temporary scope,
delegates to uniquify_video_file with the same seed, skip flag, logo,
overlay text, font and audio options, and returns exactly the bytes of
the output file that the file-to-file operation produced (raising when
that file is absent). -/
theorem bytes_to_bytes_refines_file_to_file (rngOf : ℤ → RNG) (env : Env) (fs : FS)
    (input_bytes : List ℕ) (seed : Option ℤ) (output_path : Option String)
    (sk : Bool) (logo text font : Option String) (ae : Bool) :
    (let td := env.tempDirBytes
     let inp := td ++ "/in.mp4"
     let out := match output_path with | some o => o | none => td ++ "/out.mp4"
     let r := uniquify_video_file rngOf env
       (fun q => if q = inp then some input_bytes else fs q) inp out seed sk
       logo text font ae
     (uniquify_video rngOf env fs input_bytes seed output_path sk logo text font ae).1
       = match r.1.result with
         | Except.error e => Except.error e
         | Except.ok _ =>
           match r.2 out with
           | some bs => Except.ok bs
           | none => Except.error "FileNotFoundError") := by
  simp only [uniquify_video]
  split
  · rfl
  · split <;> rfl

/- Substring infrastructure for the drawtext node. -/

lemma strToList_append (a b : String) : (a ++ b).toList = a.toList ++ b.toList :=
  String.data_append a b

lemma strHasSub_true_iff (hay needle : String) :
    strHasSub hay needle = true ↔ needle.toList <:+: hay.toList := by
  simp [strHasSub]

lemma infix_extend_left (l m pre : List Char) (h : l <:+: m) : l <:+: pre ++ m := by
  obtain ⟨s, t, hst⟩ := h
  exact ⟨pre ++ s, t, by rw [← hst]; simp⟩

lemma infix_extend_right (l m post : List Char) (h : l <:+: m) : l <:+: m ++ post := by
  obtain ⟨s, t, hst⟩ := h
  exact ⟨s, t ++ post, by rw [← hst]; simp⟩

lemma drawtext_part_has_drawtext (vcur f : String) (p : Params) (td : String) :
    strHasSub (_drawtext_part vcur f p td) "drawtext" = true := by
  rw [strHasSub_true_iff]
  unfold _drawtext_part
  simp only [strToList_append, List.append_assoc]
  apply infix_extend_left
  apply infix_extend_left
  apply infix_extend_right
  decide

/-- C10: when the caller passes no font path, the file Arial.ttf next
to the module is substituted when it exists (the first executed command
is built with that font), it is treated as absent only when that file
does not exist, and overlay text supplied without a caller font can
still produce a drawtext node in the graph. -/
theorem default_font_arial_substitution (rngOf : ℤ → RNG) (env : Env) (fs : FS)
    (inp out : String) (seed : Option ℤ) (sk : Bool)
    (logo text : Option String) (ae : Bool)
    (h : (sk && fsIsFile fs out) = false) :
    (fsIsFile fs (env.moduleDir ++ "/Arial.ttf") = true →
      resolve_font env fs none = some (env.moduleDir ++ "/Arial.ttf") ∧
      (execCmds
        (uniquify_video_file rngOf env fs inp out seed sk logo text none ae).1.events).head?
        = some (primary_build rngOf env fs inp out seed logo text none ae).cmd ∧
      primary_build rngOf env fs inp out seed logo text none ae
        = _build_cmd fs inp out (_pick_params (seed_rng rngOf env seed)) logo text
            (some (env.moduleDir ++ "/Arial.ttf")) ae (_has_audio_stream env inp)
            USE_RUBBERBAND env.tempDir (env.gRand 0)) ∧
    (fsIsFile fs (env.moduleDir ++ "/Arial.ttf") = false →
      resolve_font env fs none = none ∧
      primary_build rngOf env fs inp out seed logo text none ae
        = _build_cmd fs inp out (_pick_params (seed_rng rngOf env seed)) logo text
            none ae (_has_audio_stream env inp) USE_RUBBERBAND env.tempDir (env.gRand 0)) ∧
    (fsIsFile fs (env.moduleDir ++ "/Arial.ttf") = true →
      _text_on fs text (some (env.moduleDir ++ "/Arial.ttf")) = true →
      ∃ part ∈ (primary_build rngOf env fs inp out seed logo text none ae).fc_parts,
        strHasSub part "drawtext" = true) := by
  refine ⟨?_, ?_, ?_⟩
  · intro ha
    have hrf : resolve_font env fs none = some (env.moduleDir ++ "/Arial.ttf") := by
      simp [resolve_font, ha]
    refine ⟨hrf, ?_, ?_⟩
    · rw [uvf_run rngOf env fs inp out seed sk logo text none ae h]
      split
      · split <;> simp [execCmds_fallback_events]
      · split <;> simp [execCmds_primary_events]
    · unfold primary_build
      rw [hrf]
  · intro ha
    have hrf : resolve_font env fs none = none := by simp [resolve_font, ha]
    exact ⟨hrf, by unfold primary_build; rw [hrf]⟩
  · intro ha htext
    have hrf : resolve_font env fs none = some (env.moduleDir ++ "/Arial.ttf") := by
      simp [resolve_font, ha]
    have hb : primary_build rngOf env fs inp out seed logo text none ae
        = _build_cmd fs inp out (_pick_params (seed_rng rngOf env seed)) logo text
            (some (env.moduleDir ++ "/Arial.ttf")) ae (_has_audio_stream env inp)
            USE_RUBBERBAND env.tempDir (env.gRand 0) := by
      unfold primary_build
      rw [hrf]
    cases text with
    | none => simp [_text_on] at htext
    | some t =>
      have hcond : ((t != "") && fsIsFile fs (env.moduleDir ++ "/Arial.ttf")) = true := by
        simpa [_text_on] using htext
      refine ⟨_drawtext_part (if _logo_on fs logo then "v1" else "v0")
          (env.moduleDir ++ "/Arial.ttf") (_pick_params (seed_rng rngOf env seed)) env.tempDir,
        ?_, drawtext_part_has_drawtext _ _ _ _⟩
      rw [hb, build_fc_parts]
      simp [_text_parts, hcond]

/- Concrete fixtures used by the witnesses below. -/

def constRng : RNG := ⟨fun _ => 1/2, fun _ => 0, 0, fun _ => by norm_num⟩

def constRngOf : ℤ → RNG := fun _ => constRng

def fsEmpty : FS := fun _ => none

def fsWithOut : FS := fun p => if p = "b.mp4" then some [] else none

def fsArial : FS := fun p => if p = "/app/Arial.ttf" then some [] else none

def wProbeAudio : ProcResult := ⟨0, "audio", ""⟩

def wEnv (r : ProcResult) : Env :=
  ⟨fun _ => wProbeAudio, fun _ fs => (r, fs), constRng, fun _ => 0,
   "/tmp/u", "/tmp/b", "/app"⟩

theorem seeded_sampling_pure_function_of_seed_witness :
    (uniquify_video_file constRngOf (wEnv ⟨0, "", ""⟩) fsEmpty "a.mp4" "b.mp4"
        (some 7) false none none none true).1.sampled
      = (uniquify_video_file constRngOf (wEnv ⟨1, "", "boom"⟩) fsEmpty "c.mp4" "d.mp4"
        (some 7) true none none none false).1.sampled :=
  (seeded_sampling_pure_function_of_seed constRngOf 7 (wEnv ⟨0, "", ""⟩)
    (wEnv ⟨1, "", "boom"⟩) fsEmpty fsEmpty "a.mp4" "b.mp4" "c.mp4" "d.mp4"
    false true none none none none none none true false rfl rfl).1

theorem skip_if_exists_short_circuits_witness :
    uniquify_video_file constRngOf (wEnv ⟨0, "", ""⟩) fsWithOut "a.mp4" "b.mp4"
        none true none none none true
      = (⟨Except.ok "b.mp4", [], none⟩, fsWithOut) :=
  (skip_if_exists_short_circuits constRngOf (wEnv ⟨0, "", ""⟩) fsWithOut "a.mp4" "b.mp4"
    none true none none none true rfl (by decide)).1

theorem fallback_retry_fires_iff_rubberband_issue_witness :
    (execCmds (uniquify_video_file constRngOf
        (wEnv ⟨1, "", "x rubberband y No Such Filter z"⟩) fsEmpty
        "a.mp4" "b.mp4" (some 7) false none none none true).1.events).length = 2 := by
  have hmain := (fallback_retry_fires_iff_rubberband_issue constRngOf
    (wEnv ⟨1, "", "x rubberband y No Such Filter z"⟩) fsEmpty
    "a.mp4" "b.mp4" (some 7) false none none none true rfl).1
  rw [hmain]
  decide

theorem unretryable_failure_is_fatal_witness :
    (uniquify_video_file constRngOf (wEnv ⟨1, "", "invalid pixel format"⟩) fsEmpty
        "a.mp4" "b.mp4" (some 7) false none none none true).1.result
      = Except.error "ffmpeg error: invalid pixel format" := by
  have hmain := (unretryable_failure_is_fatal constRngOf
    (wEnv ⟨1, "", "invalid pixel format"⟩) fsEmpty
    "a.mp4" "b.mp4" (some 7) false none none none true rfl).1 (by decide) (by decide)
  exact hmain.1.trans (congrArg Except.error (by decide))

theorem audio_chain_iff_enabled_and_present_witness :
    List.IsInfix ["-map", "[aout]"]
      (_build_cmd fsEmpty "a.mp4" "b.mp4" (_pick_params constRng) none none none
        true true true "/tmp/u" 0).cmd :=
  ((audio_chain_iff_enabled_and_present fsEmpty "a.mp4" "b.mp4" (_pick_params constRng)
    none none none true true true "/tmp/u" 0).1 rfl).2.2

theorem assets_absent_silently_skipped_witness :
    _build_cmd fsEmpty "a.mp4" "b.mp4" (_pick_params constRng) (some "logo.png")
        none none true true true "/tmp/u" 0
      = _build_cmd fsEmpty "a.mp4" "b.mp4" (_pick_params constRng) none
        none none true true true "/tmp/u" 0 :=
  (assets_absent_silently_skipped fsEmpty "a.mp4" "b.mp4" (_pick_params constRng)
    (some "logo.png") none none true true true "/tmp/u" 0).1 (by decide)

theorem default_font_arial_substitution_witness :
    ∃ part ∈ (primary_build constRngOf (wEnv ⟨0, "", ""⟩) fsArial "a.mp4" "b.mp4"
        (some 7) none (some "hi") none true).fc_parts,
      strHasSub part "drawtext" = true :=
  ((default_font_arial_substitution constRngOf (wEnv ⟨0, "", ""⟩) fsArial "a.mp4" "b.mp4"
    (some 7) false none (some "hi") true rfl).2.2 (by decide) (by decide))
